import Mathlib

/-!
Verification development for the connection lifecycle manager and the
progressive candle aggregator of the Quotex API server
(file src/api_server.py).

The Python source is shallowly embedded as pure Lean functions:

* `ensure_connection`   embeds the lock-guarded body of the coroutine
  `ensure_connection` (src/api_server.py lines 52-98).  Outcomes of the
  awaited session-client calls (`client.connect()`, `client.check_connect()`)
  are supplied through an `EnsureEnv` record, one entry per call site of the
  invocation, so quantifying over environments quantifies over all possible
  session-client (mock) behaviours.  Each invocation also emits a trace of
  events (lock acquire and release, client construction, connect calls,
  liveness checks, status writes) used to count physical `connect()` calls
  and to reason about lock usage.
* `connection_keeper_tick` embeds one iteration of the background loop
  `connection_keeper` (lines 101-115).  The Python `try`/`except` that
  swallows probe errors is reflected in the tick being a total function:
  an erroring probe is one of the `ProbeEnv` cases and produces a normal
  successor state, never a surfaced error.
* `get_candles_progressive` embeds the body of the handler
  `get_candles_progressive` (lines 256-299) after the `ensure_connection`
  call: the `size = days * 24` loop, the dead offset-doubling branch
  `if i >= size`, the frozenset-keyed deduplication, and the blanket
  `except Exception` that re-raises `HTTPException(500, str(e))`.

Timestamps returned by `get_timestamp_days_ago` (imported from the external
`quotexapi` package, outside this repository) enter as an explicit integer
parameter.  Python float prices inside candles are modelled as integers under
decidable equality: only equality of whole records matters to the
deduplication step, never float arithmetic.  Machine-level arithmetic is
exact (`Nat`), matching unbounded Python integers.
-/

/-- Outcome of one awaited call against the session client: either a normal
return value or a raised exception carrying the message `str(e)`. -/
inductive CallResult (α : Type) where
  | ok (a : α)
  | exn (msg : String)
  deriving Repr, DecidableEq

/-- Whether a call outcome is a normal return. -/
def CallResult.isOk {α : Type} : CallResult α → Bool
  | CallResult.ok _ => true
  | CallResult.exn _ => false

/-- The mutable global `connection_status` dict of src/api_server.py line 26:
`{"connected": False, "last_error": None, "last_connected": None}`. -/
structure ConnectionStatus where
  connected : Bool
  lastError : Option String
  lastConnected : Option String
  deriving Repr, DecidableEq

/-- The module-level mutable state of src/api_server.py lines 23-26: the
lazily created client object (tracked as a Bool since only its existence is
branched on), the shared status dict and the float global
`last_connection_time` (modelled as an integer epoch instant). -/
structure ServerState where
  clientInit : Bool
  status : ConnectionStatus
  lastConnectionTime : Option Nat
  deriving Repr, DecidableEq

/-- Process start state: no client constructed, status dict as initialised on
line 26, no recorded connection instant. -/
def initServerState : ServerState :=
  { clientInit := false
    status := { connected := false, lastError := none, lastConnected := none }
    lastConnectionTime := none }

/-- Atomic events emitted while executing the embedded code: lock operations
on the single `connection_lock`, construction of the client, physical
`connect()` calls, liveness checks, and writes to the shared status dict
(consecutive field assignments are coalesced into one write event). -/
inductive Event where
  | lockAcquire
  | lockRelease
  | clientConstruct
  | connectCall
  | checkCall
  | statusWrite
  deriving Repr, DecidableEq

/-- Errors surfaced to a caller: `HTTPException(statusCode, detail)` raised
by the handlers, or an uncaught Python exception propagating out. -/
inductive ApiError where
  | http (statusCode : Nat) (detail : String)
  | exn (msg : String)
  deriving Repr, DecidableEq

/-- Rendering `str(e)` of an `HTTPException(code, detail)`: Python prints the
exception argument tuple; quote marks around the detail are elided. -/
def httpExnStr (code : Nat) (detail : String) : String :=
  "(" ++ toString code ++ ", " ++ detail ++ ")"

/-- Session-client responses for the at most three awaited calls made by one
`ensure_connection` invocation, plus the clock values read on success paths.
`connectA` answers the initial `client.connect()` on line 68, `check` the
`client.check_connect()` on line 87, `connectB` the reconnect
`client.connect()` on line 90. -/
structure EnsureEnv where
  connectA : CallResult (Bool × String)
  check : CallResult Bool
  connectB : CallResult (Bool × String)
  nowIso : String
  nowEpoch : Nat
  deriving Repr, DecidableEq

/-- Result of one `ensure_connection` invocation: the value or error returned
to the caller, the module state it leaves behind, and the event trace. -/
structure EnsureResult where
  result : Except ApiError Unit
  state : ServerState
  trace : List Event
  deriving Repr

/-- Number of physical `client.connect()` calls made by one invocation. -/
def EnsureResult.connectCalls (r : EnsureResult) : Nat :=
  r.trace.count Event.connectCall

/-- Lines 86-98 of src/api_server.py: the liveness check and the single
reconnect attempt.  Reached with the state as left by the initial-connect
block.  The reconnect success path (lines 91-95) updates `connected`,
`last_connected` and `last_connection_time` but leaves `last_error` alone;
the reconnect failure path (lines 96-98) records `last_error` and raises a
503; an exception escaping `check_connect` or `connect` here is uncaught. -/
def ensureCheck (s : ServerState) (env : EnsureEnv) :
    Except ApiError Unit × ServerState × List Event :=
  match env.check with
  | CallResult.exn msg => (Except.error (ApiError.exn msg), s, [Event.checkCall])
  | CallResult.ok true => (Except.ok (), s, [Event.checkCall])
  | CallResult.ok false =>
      let s1 : ServerState := { s with status := { s.status with connected := false } }
      match env.connectB with
      | CallResult.exn msg =>
          (Except.error (ApiError.exn msg), s1,
            [Event.checkCall, Event.statusWrite, Event.connectCall])
      | CallResult.ok (true, _r) =>
          (Except.ok (),
            { s1 with
                status := { s1.status with connected := true, lastConnected := some env.nowIso }
                lastConnectionTime := some env.nowEpoch },
            [Event.checkCall, Event.statusWrite, Event.connectCall, Event.statusWrite])
      | CallResult.ok (false, reason) =>
          (Except.error (ApiError.http 503 ("Reconnection failed: " ++ reason)),
            { s1 with status := { s1.status with lastError := some reason } },
            [Event.checkCall, Event.statusWrite, Event.connectCall, Event.statusWrite])

/-- Lines 65-98 of src/api_server.py, entered with the client constructed.
If the status is disconnected, run the guarded initial connect (lines 65-84):
on success record the connection and fall through to the liveness check; on
a failed or erroring connect the `except Exception` block records the error
and raises a 503 (the inner `HTTPException` of line 79 is itself caught by
that `except`, so the recorded `last_error` is its `str(e)` rendering). -/
def ensureBody (s : ServerState) (env : EnsureEnv) :
    Except ApiError Unit × ServerState × List Event :=
  if s.status.connected then ensureCheck s env
  else
    match env.connectA with
    | CallResult.exn msg =>
        (Except.error (ApiError.http 503 ("Connection error: " ++ msg)),
          { s with status := { s.status with connected := false, lastError := some msg } },
          [Event.connectCall, Event.statusWrite])
    | CallResult.ok (true, _r) =>
        let s1 : ServerState := { s with
          status := { connected := true, lastError := none, lastConnected := some env.nowIso }
          lastConnectionTime := some env.nowEpoch }
        let r := ensureCheck s1 env
        (r.1, r.2.1, Event.connectCall :: Event.statusWrite :: r.2.2)
    | CallResult.ok (false, reason) =>
        let msg := httpExnStr 503 ("Failed to connect: " ++ reason)
        (Except.error (ApiError.http 503 ("Connection error: " ++ msg)),
          { s with status := { s.status with connected := false, lastError := some msg } },
          [Event.connectCall, Event.statusWrite])

/-- One full `ensure_connection()` invocation (lines 52-98): acquire the
connection lock for the whole body, lazily construct the client (lines
57-63), run the body, and release the lock even when an error propagates
(the `async with` guarantee). -/
def ensure_connection (s : ServerState) (env : EnsureEnv) : EnsureResult :=
  let ctr : List Event := if s.clientInit then [] else [Event.clientConstruct]
  let s0 : ServerState := { s with clientInit := true }
  let r := ensureBody s0 env
  { result := r.1, state := r.2.1
    trace := Event.lockAcquire :: (ctr ++ r.2.2 ++ [Event.lockRelease]) }

/-- Observation made by one keeper tick: the probe either returned a Bool or
raised (the message is what `str(e)` would print). -/
inductive ProbeEnv where
  | result (alive : Bool)
  | raises (msg : String)
  deriving Repr, DecidableEq

/-- One iteration of the background loop `connection_keeper`
(src/api_server.py lines 101-115), excluding the sleep.  If the shared status
says connected, probe `client and await client.check_connect()`; when the
client is missing or the probe returns false, or the probe raises (caught by
the `except` on line 111), write `connected = False`.  The body takes no
lock: the returned trace faithfully contains no lock events. -/
def connection_keeper_tick (s : ServerState) (env : ProbeEnv) : ServerState × List Event :=
  if s.status.connected then
    if s.clientInit then
      match env with
      | ProbeEnv.result true => (s, [Event.checkCall])
      | ProbeEnv.result false =>
          ({ s with status := { s.status with connected := false } },
            [Event.checkCall, Event.statusWrite])
      | ProbeEnv.raises _ =>
          ({ s with status := { s.status with connected := false } },
            [Event.checkCall, Event.statusWrite])
    else
      ({ s with status := { s.status with connected := false } }, [Event.statusWrite])
  else (s, [])

/-- The keeper loop run over a finite prefix of tick observations: each tick
updates the state and the loop unconditionally continues with the rest. -/
def connection_keeper_run (s : ServerState) (envs : List ProbeEnv) : ServerState :=
  envs.foldl (fun t e => (connection_keeper_tick t e).1) s

/-- An interleaving step on the shared module state: either one
lock-serialized `ensure_connection` invocation or one keeper tick. -/
inductive Op where
  | ensureOp (env : EnsureEnv)
  | keeperOp (env : ProbeEnv)

/-- Effect of one step on the shared module state. -/
def applyOp (s : ServerState) : Op → ServerState
  | Op.ensureOp env => (ensure_connection s env).state
  | Op.keeperOp env => (connection_keeper_tick s env).1

/-- State reached after a sequence of interleaved steps. -/
def run_ops (s : ServerState) (ops : List Op) : ServerState :=
  ops.foldl applyOp s

/-- Result of running several `ensure_connection` invocations back to back,
the order the connection lock serializes concurrent callers into: the value
or error each caller observes, the final state, and the total number of
physical `connect()` calls across all callers. -/
structure RunEnsures where
  results : List (Except ApiError Unit)
  state : ServerState
  connects : Nat

/-- Lock-serialized execution of a list of `ensure_connection` callers. -/
def run_ensures : ServerState → List EnsureEnv → RunEnsures
  | s, [] => { results := [], state := s, connects := 0 }
  | s, e :: rest =>
      let r := ensure_connection s e
      let t := run_ensures r.state rest
      { results := r.result :: t.results, state := t.state
        connects := r.connectCalls + t.connects }

/-- One OHLCV price bar as returned by the session client.  Python float
prices are modelled as integers under decidable equality; the deduplication
step only ever compares whole records for equality. -/
structure Candle where
  time : Nat
  open_ : Int
  close : Int
  high : Int
  low : Int
  volume : Nat
  deriving Repr, DecidableEq

/-- Arguments of one `client.get_candles(asset, end_from_time, offset,
period, progressive=True)` call issued by the progressive fetch loop. -/
structure FetchCall where
  asset : String
  endFromTime : Nat
  offset : Nat
  period : Nat
  deriving Repr, DecidableEq

/-- The `CandleRequest` model of src/api_server.py lines 29-33, the input of
the progressive fetch. -/
structure CandleRequest where
  asset : String
  period : Nat
  days : Nat
  offset : Nat
  deriving Repr, DecidableEq

/-- One step of building the Python dict
`{frozenset(d.items()): d for d in list_candles}`: because the frozenset of
the items of a dict determines the dict, inserting a candle whose full record
already occurs leaves the dict unchanged (the overwritten representative is
an equal record), and a new record is appended in key-insertion order. -/
def dedupFold (acc : List Candle) (c : Candle) : List Candle :=
  if c ∈ acc then acc else acc ++ [c]

/-- Line 288 of src/api_server.py: deduplication of the accumulated candles
by full-record equality, keeping one representative per distinct record in
first-occurrence order. -/
def remove_duplicates (xs : List Candle) : List Candle :=
  xs.foldl dedupFold []

/-- Result of one progressive fetch: the response (the deduplicated candles,
or the surfaced error) and the trace of retrieval calls issued. -/
structure FetchResult where
  result : Except ApiError (List Candle)
  calls : List FetchCall
  deriving Repr

/-- The retrieval loop of src/api_server.py lines 270-285.  `remaining` is
the number of iterations left of the `for i in range(size)` loop and `i` the
current index; `endFromTime` and `offset` thread the mutated locals
(`request.offset` is mutable through the dead doubling branch on lines
280-281); `acc` accumulates returned candles and `calls` the issued retrieval
calls.  A raising retrieval call aborts the loop; the surrounding
`except Exception` block (lines 297-299) re-raises
`HTTPException(500, str(e))`.  After the last iteration the accumulator is
deduplicated (line 288). -/
def fetchLoop (asset : String) (period : Nat) (size : Nat)
    (mock : Nat → CallResult (List Candle)) :
    Nat → Nat → Nat → Nat → List Candle → List FetchCall →
    Except ApiError (List Candle) × List FetchCall
  | 0, _, _, _, acc, calls => (Except.ok (remove_duplicates acc), calls)
  | remaining + 1, i, endFromTime, offset, acc, calls =>
      let call : FetchCall :=
        { asset := asset, endFromTime := endFromTime, offset := offset, period := period }
      match mock i with
      | CallResult.exn msg => (Except.error (ApiError.http 500 msg), calls ++ [call])
      | CallResult.ok cs =>
          let acc2 := acc ++ cs
          let offset2 := if size ≤ i then offset * 2 else offset
          fetchLoop asset period size mock remaining (i + 1)
            (endFromTime + offset2) offset2 acc2 (calls ++ [call])

/-- The handler body of src/api_server.py lines 260-299 after the
`ensure_connection` call.  `timestamp` is the value of
`get_timestamp_days_ago(request.days)` (external `quotexapi.expiration`
helper, already truncated by `int(...)`); `mock` gives the outcome of the
retrieval call at each loop index.  A zero period makes the modulo on line
266 raise `ZeroDivisionError` before any retrieval call, which the blanket
`except Exception` turns into an HTTP 500. -/
def get_candles_progressive (req : CandleRequest) (timestamp : Nat)
    (mock : Nat → CallResult (List Candle)) : FetchResult :=
  if req.period = 0 then
    { result := Except.error (ApiError.http 500 "integer division or modulo by zero")
      calls := [] }
  else
    let size := req.days * 24
    let endFromTime := (timestamp - timestamp % req.period) + req.offset
    let r := fetchLoop req.asset req.period size mock size 0 endFromTime req.offset [] []
    { result := r.1, calls := r.2 }

/-- A session-client behaviour whose `connect()` always succeeds and whose
liveness probe then reports the connection alive. -/
def goodEnv : EnsureEnv :=
  { connectA := CallResult.ok (true, "Conectado com sucesso")
    check := CallResult.ok true
    connectB := CallResult.ok (true, "Conectado com sucesso")
    nowIso := "2026-01-01T00:00:00"
    nowEpoch := 1767225600 }

/-- A session-client behaviour whose `connect()` always fails. -/
def badEnv : EnsureEnv :=
  { connectA := CallResult.ok (false, "denied")
    check := CallResult.ok true
    connectB := CallResult.ok (false, "denied")
    nowIso := "2026-01-01T00:00:00"
    nowEpoch := 1767225600 }

/-- A session-client behaviour for a reconnect: the probe reports the
connection dead and the single reconnect attempt succeeds. -/
def reconEnv : EnsureEnv :=
  { connectA := CallResult.ok (true, "ok")
    check := CallResult.ok false
    connectB := CallResult.ok (true, "ok")
    nowIso := "2026-01-02T00:00:00"
    nowEpoch := 1767312000 }

/-- A connected module state with a client and a stale recorded error. -/
def staleState : ServerState :=
  { clientInit := true
    status := { connected := true, lastError := some "old failure"
                lastConnected := some "2026-01-01T00:00:00" }
    lastConnectionTime := some 1767225600 }

/-- The default request of the spec examples:
`{asset: "EURUSD_otc", period: 60, days: 1, offset: 3600}`. -/
def reqStd : CandleRequest :=
  { asset := "EURUSD_otc", period := 60, days := 1, offset := 3600 }

/-- A retrieval behaviour where every call returns an empty candle list. -/
def mockOkEmpty : Nat → CallResult (List Candle) :=
  fun _ => CallResult.ok []

/-- A retrieval behaviour failing exactly at loop index `k` with message
`boom` and returning an empty list everywhere else. -/
def mockFailAt (k : Nat) : Nat → CallResult (List Candle) :=
  fun i => if i = k then CallResult.exn "boom" else CallResult.ok []

/-- Membership in the deduplicating fold: an element is in the fold of `xs`
over `acc` exactly when it is in `acc` or in `xs`. -/
theorem mem_foldl_dedupFold (xs : List Candle) :
    ∀ (acc : List Candle) (a : Candle),
      a ∈ xs.foldl dedupFold acc ↔ a ∈ acc ∨ a ∈ xs := by
  induction xs with
  | nil => intro acc a; simp
  | cons x xs ih =>
      intro acc a
      rw [List.foldl_cons, ih]
      unfold dedupFold
      by_cases hx : x ∈ acc
      · simp only [if_pos hx, List.mem_cons]
        constructor
        · rintro (h | h)
          · exact Or.inl h
          · exact Or.inr (Or.inr h)
        · rintro (h | h | h)
          · exact Or.inl h
          · exact Or.inl (h ▸ hx)
          · exact Or.inr h
      · simp only [if_neg hx, List.mem_append, List.mem_singleton, List.mem_cons]
        tauto

/-- The deduplicating fold preserves absence of duplicates. -/
theorem nodup_foldl_dedupFold (xs : List Candle) :
    ∀ acc : List Candle, acc.Nodup → (xs.foldl dedupFold acc).Nodup := by
  induction xs with
  | nil => intro acc h; simpa using h
  | cons x xs ih =>
      intro acc h
      rw [List.foldl_cons]
      apply ih
      unfold dedupFold
      by_cases hx : x ∈ acc
      · simpa [hx] using h
      · simp only [if_neg hx, List.nodup_append]
        refine ⟨h, List.nodup_singleton x, ?_⟩
        intro a ha hax
        rw [List.mem_singleton] at hax
        exact hx (hax ▸ ha)

/-- Shape of the retrieval-call trace produced by the loop when the running
index stays below the loop bound (as it always does when entered from the
top, where `i = 0` and `remaining = size`): some prefix of `m ≤ remaining`
calls is issued, all with the entry offset, and with end times advancing by
exactly that offset per call — the doubling branch never fires. -/
theorem fetchLoop_calls_shape (asset : String) (period size : Nat)
    (mock : Nat → CallResult (List Candle)) :
    ∀ (remaining i endT off : Nat) (acc : List Candle) (calls : List FetchCall),
      i + remaining ≤ size →
      ∃ m, m ≤ remaining ∧
        (fetchLoop asset period size mock remaining i endT off acc calls).2
          = calls ++ (List.range m).map (fun j =>
              { asset := asset, endFromTime := endT + j * off
                offset := off, period := period }) := by
  intro remaining
  induction remaining with
  | zero =>
      intro i endT off acc calls _
      exact ⟨0, Nat.le_refl 0, by simp [fetchLoop]⟩
  | succ rem ih =>
      intro i endT off acc calls h
      have hns : ¬ size ≤ i := by omega
      cases hmock : mock i with
      | exn msg =>
          refine ⟨1, by omega, ?_⟩
          simp [fetchLoop, hmock, List.range_succ]
      | ok cs =>
          obtain ⟨m, hm, heq⟩ := ih (i + 1) (endT + off) off (acc ++ cs)
            (calls ++ [{ asset := asset, endFromTime := endT, offset := off, period := period }])
            (by omega)
          refine ⟨m + 1, by omega, ?_⟩
          rw [show fetchLoop asset period size mock (rem + 1) i endT off acc calls
              = fetchLoop asset period size mock rem (i + 1)
                  (endT + (if size ≤ i then off * 2 else off))
                  (if size ≤ i then off * 2 else off) (acc ++ cs)
                  (calls ++ [{ asset := asset, endFromTime := endT, offset := off, period := period }])
            from by simp [fetchLoop, hmock]]
          rw [if_neg hns, heq, List.range_succ_eq_map, List.map_cons, List.map_map,
            List.append_assoc, List.singleton_append]
          apply congrArg
          congr 1
          · simp
          · apply List.map_congr_left
            intro j _
            simp only [Function.comp_apply, FetchCall.mk.injEq, true_and, and_true]
            rw [Nat.succ_eq_add_one]
            ring

/-- When every retrieval call returns normally, the loop performs one call
per remaining iteration. -/
theorem fetchLoop_calls_length (asset : String) (period size : Nat)
    (mock : Nat → CallResult (List Candle))
    (hok : ∀ j, (mock j).isOk = true) :
    ∀ (remaining i endT off : Nat) (acc : List Candle) (calls : List FetchCall),
      (fetchLoop asset period size mock remaining i endT off acc calls).2.length
        = calls.length + remaining := by
  intro remaining
  induction remaining with
  | zero => intro i endT off acc calls; simp [fetchLoop]
  | succ rem ih =>
      intro i endT off acc calls
      cases hmock : mock i with
      | exn msg =>
          have := hok i
          rw [hmock] at this
          simp [CallResult.isOk] at this
      | ok cs =>
          rw [show fetchLoop asset period size mock (rem + 1) i endT off acc calls
              = fetchLoop asset period size mock rem (i + 1)
                  (endT + (if size ≤ i then off * 2 else off))
                  (if size ≤ i then off * 2 else off) (acc ++ cs)
                  (calls ++ [{ asset := asset, endFromTime := endT, offset := off, period := period }])
            from by simp [fetchLoop, hmock]]
          rw [ih]
          simp
          omega

/-- If the retrieval call at index `i` raises while every earlier reached
call returns normally, the loop aborts with the 500 whose detail is exactly
the message of the raised exception. -/
theorem fetchLoop_fail (asset : String) (period size : Nat)
    (mock : Nat → CallResult (List Candle)) (i : Nat) (c : String)
    (hf : mock i = CallResult.exn c) :
    ∀ (remaining idx endT off : Nat) (acc : List Candle) (calls : List FetchCall),
      idx ≤ i → i < idx + remaining →
      (∀ j, idx ≤ j → j < i → (mock j).isOk = true) →
      (fetchLoop asset period size mock remaining idx endT off acc calls).1
        = Except.error (ApiError.http 500 c) := by
  intro remaining
  induction remaining with
  | zero => intro idx endT off acc calls h1 h2 _; omega
  | succ rem ih =>
      intro idx endT off acc calls h1 h2 hpre
      by_cases hidx : idx = i
      · subst hidx
        simp [fetchLoop, hf]
      · have hlt : idx < i := by omega
        have hok : (mock idx).isOk = true := hpre idx (Nat.le_refl idx) hlt
        cases hmock : mock idx with
        | exn msg =>
            rw [hmock] at hok
            simp [CallResult.isOk] at hok
        | ok cs =>
            rw [show fetchLoop asset period size mock (rem + 1) idx endT off acc calls
                = fetchLoop asset period size mock rem (idx + 1)
                    (endT + (if size ≤ idx then off * 2 else off))
                    (if size ≤ idx then off * 2 else off) (acc ++ cs)
                    (calls ++ [{ asset := asset, endFromTime := endT, offset := off, period := period }])
              from by simp [fetchLoop, hmock]]
            exact ih (idx + 1) _ _ _ _ (by omega) (by omega)
              (fun j hj1 hj2 => hpre j (by omega) hj2)

/-- C2: for every fetch window, timestamp and retrieval behaviour, the
offsetSeconds argument passed to every retrieval call issued by
`get_candles_progressive` equals the initial request offset — the doubling
branch guarded by `i >= size` inside `for i in range(size)` never fires. -/
theorem progressive_offset_pinned (req : CandleRequest) (timestamp : Nat)
    (mock : Nat → CallResult (List Candle)) :
    ∀ c ∈ (get_candles_progressive req timestamp mock).calls, c.offset = req.offset := by
  intro c hc
  unfold get_candles_progressive at hc
  by_cases hp : req.period = 0
  · simp [hp] at hc
  · simp only [if_neg hp] at hc
    obtain ⟨m, _, heq⟩ := fetchLoop_calls_shape req.asset req.period (req.days * 24) mock
      (req.days * 24) 0 ((timestamp - timestamp % req.period) + req.offset) req.offset [] []
      (by omega)
    rw [heq, List.nil_append] at hc
    rw [List.mem_map] at hc
    obtain ⟨j, _, hj⟩ := hc
    rw [← hj]

/-- Witness for C2: the third retrieval call of the standard window carries
the initial offset 3600. -/
theorem progressive_offset_pinned_witness :
    ({ asset := "EURUSD_otc", endFromTime := 97200, offset := 3600, period := 60 }
      : FetchCall).offset = reqStd.offset :=
  progressive_offset_pinned reqStd 86400 mockOkEmpty _ (by decide)

/-- C3 (counterexample): a fetch window with periodSeconds = 0 is processed
by raising a modulo-by-zero before any retrieval call, so with days = 1 the
handler issues 0 calls, not 24, although every retrieval call (there are
none) succeeds. -/
theorem progressive_zero_period_no_calls :
    (get_candles_progressive { asset := "EURUSD_otc", period := 0, days := 1, offset := 3600 }
        86400 mockOkEmpty).calls.length = 0 ∧ (0 : Nat) ≠ 1 * 24 :=
  ⟨rfl, by decide⟩

/-- C3 (amended): for every fetch window with a positive periodSeconds in
which every retrieval call succeeds, `get_candles_progressive` issues exactly
days * 24 retrieval calls (so 24 for one day and none for zero days). -/
theorem progressive_call_count (req : CandleRequest) (timestamp : Nat)
    (mock : Nat → CallResult (List Candle)) (hp : 0 < req.period)
    (hok : ∀ j, (mock j).isOk = true) :
    (get_candles_progressive req timestamp mock).calls.length = req.days * 24 := by
  unfold get_candles_progressive
  rw [if_neg (by omega)]
  simpa using fetchLoop_calls_length req.asset req.period (req.days * 24) mock hok
    (req.days * 24) 0 ((timestamp - timestamp % req.period) + req.offset) req.offset [] []

/-- Witness for C3 (amended): the standard one-day window issues 24 calls. -/
theorem progressive_call_count_witness :
    (get_candles_progressive reqStd 86400 mockOkEmpty).calls.length = reqStd.days * 24 :=
  progressive_call_count reqStd 86400 mockOkEmpty (by decide) (fun _ => rfl)

/-- C4: the deduplication step of the progressive fetch uses full-record
equality as candle identity: the output has no duplicate records (any two
candles agreeing on every field collapse, and each surviving record appears
exactly once) and a record is in the output exactly when it occurs in the
accumulated input (so two candles differing in any one field, for instance
only in volume, both remain). -/
theorem dedup_full_field_identity (xs : List Candle) (c : Candle) :
    (remove_duplicates xs).Nodup ∧ (c ∈ remove_duplicates xs ↔ c ∈ xs) := by
  constructor
  · exact nodup_foldl_dedupFold xs [] List.nodup_nil
  · unfold remove_duplicates
    rw [mem_foldl_dedupFold]
    simp

/-- C5 (counterexample): the error surfaced when the 13th retrieval call
(index 12) of the standard window raises is byte-for-byte the same value as
the error surfaced when the 6th call (index 5) raises — an HTTP 500 whose
detail is just the cause — so the surfaced error carries no failing
iteration index. -/
theorem progressive_error_without_index :
    (get_candles_progressive reqStd 86400 (mockFailAt 12)).result
        = Except.error (ApiError.http 500 "boom") ∧
      (get_candles_progressive reqStd 86400 (mockFailAt 5)).result
        = Except.error (ApiError.http 500 "boom") :=
  ⟨rfl, rfl⟩

/-- C5 (amended): for every fetch window with positive periodSeconds, if the
retrieval call at reached iteration index i raises (all earlier calls
returning normally), the whole operation returns no candles and surfaces an
HTTP 500 carrying only the underlying cause. -/
theorem progressive_all_or_nothing (req : CandleRequest) (timestamp : Nat)
    (mock : Nat → CallResult (List Candle)) (i : Nat) (c : String)
    (hp : 0 < req.period) (hi : i < req.days * 24)
    (hpre : ∀ j, j < i → (mock j).isOk = true)
    (hf : mock i = CallResult.exn c) :
    (get_candles_progressive req timestamp mock).result
      = Except.error (ApiError.http 500 c) := by
  unfold get_candles_progressive
  rw [if_neg (by omega)]
  exact fetchLoop_fail req.asset req.period (req.days * 24) mock i c hf
    (req.days * 24) 0 ((timestamp - timestamp % req.period) + req.offset) req.offset [] []
    (Nat.zero_le i) (by omega) (fun j _ hj => hpre j hj)

/-- Witness for C5 (amended): failing the 13th call of the standard window
surfaces the 500 with the cause. -/
theorem progressive_all_or_nothing_witness :
    (get_candles_progressive reqStd 86400 (mockFailAt 12)).result
      = Except.error (ApiError.http 500 "boom") :=
  progressive_all_or_nothing reqStd 86400 (mockFailAt 12) 12 "boom" (by decide) (by decide)
    (fun j hj => by
      have hne : j ≠ 12 := by omega
      simp [mockFailAt, hne, CallResult.isOk])
    (by simp [mockFailAt])

/-- C6: the end time of the retrieval call at index k (whenever that call
occurs) is E0 + k * offset, where E0 is the timestamp of days-ago rounded
down to a multiple of periodSeconds and shifted forward by offset. -/
theorem progressive_endtime_schedule (req : CandleRequest) (timestamp : Nat)
    (mock : Nat → CallResult (List Candle)) (k : Nat) (c : FetchCall)
    (h : (get_candles_progressive req timestamp mock).calls[k]? = some c) :
    c.endFromTime = ((timestamp - timestamp % req.period) + req.offset) + k * req.offset := by
  unfold get_candles_progressive at h
  by_cases hp : req.period = 0
  · simp [hp] at h
  · simp only [if_neg hp] at h
    obtain ⟨m, _, heq⟩ := fetchLoop_calls_shape req.asset req.period (req.days * 24) mock
      (req.days * 24) 0 ((timestamp - timestamp % req.period) + req.offset) req.offset [] []
      (by omega)
    rw [heq, List.nil_append] at h
    by_cases hk : k < m
    · rw [List.getElem?_map, List.getElem?_range hk] at h
      simp only [Option.map_some'] at h
      cases h
      rfl
    · rw [List.getElem?_eq_none (by simpa using Nat.le_of_not_lt hk)] at h
      cases h

/-- Witness for C6: the third call (k = 2) of the standard window ends at
(86400 - 86400 mod 60) + 3600 + 2 * 3600 = 97200. -/
theorem progressive_endtime_schedule_witness :
    ({ asset := "EURUSD_otc", endFromTime := 97200, offset := 3600, period := 60 }
        : FetchCall).endFromTime
      = ((86400 - 86400 % reqStd.period) + reqStd.offset) + 2 * reqStd.offset :=
  progressive_endtime_schedule reqStd 86400 mockOkEmpty 2 _ (by decide)

/-- A connected module state with a live client, as the keeper sees it. -/
def kConnState : ServerState :=
  { clientInit := true
    status := { connected := true, lastError := none
                lastConnected := some "2026-01-01T00:00:00" }
    lastConnectionTime := some 1767225600 }

/-- First caller against a disconnected status whose initial connect attempt
succeeds and whose subsequent liveness check passes: the call returns
normally, leaves a connected state with a constructed client, and makes
exactly one physical connect call. -/
theorem ensure_connection_first (s : ServerState) (env : EnsureEnv) (r : String)
    (hconn : s.status.connected = false)
    (hA : env.connectA = CallResult.ok (true, r))
    (hchk : env.check = CallResult.ok true) :
    (ensure_connection s env).result = Except.ok () ∧
    (ensure_connection s env).state.status.connected = true ∧
    (ensure_connection s env).state.clientInit = true ∧
    (ensure_connection s env).connectCalls = 1 := by
  by_cases hci : s.clientInit <;>
    simp [ensure_connection, ensureBody, ensureCheck, EnsureResult.connectCalls,
      hconn, hA, hchk, hci, List.count_cons, List.count_append]

/-- A caller finding the status connected, the client constructed and the
liveness probe passing returns immediately with no state change and no
connect call: the trace is just the lock bracket around the probe. -/
theorem ensure_connection_idem (s : ServerState) (env : EnsureEnv)
    (hconn : s.status.connected = true) (hci : s.clientInit = true)
    (hchk : env.check = CallResult.ok true) :
    ensure_connection s env =
      { result := Except.ok (), state := s
        trace := [Event.lockAcquire, Event.checkCall, Event.lockRelease] } := by
  have hs : ({ s with clientInit := true } : ServerState) = s := by
    cases s
    simp_all
  simp [ensure_connection, ensureBody, ensureCheck, hconn, hci, hchk, hs]

/-- Serialized callers that find the connection up and live make no connect
call and leave the state untouched. -/
theorem run_ensures_connected (rest : List EnsureEnv) :
    ∀ s : ServerState, s.status.connected = true → s.clientInit = true →
      (∀ e ∈ rest, e.check = CallResult.ok true) →
      run_ensures s rest =
        { results := rest.map (fun _ => Except.ok ()), state := s, connects := 0 } := by
  induction rest with
  | nil => intro s _ _ _; rfl
  | cons e rest ih =>
      intro s h1 h2 h3
      have he := h3 e (List.mem_cons_self e rest)
      show run_ensures s (e :: rest) = _
      rw [run_ensures, ensure_connection_idem s e h1 h2 he,
        ih s h1 h2 (fun x hx => h3 x (List.mem_cons_of_mem e hx))]
      simp [EnsureResult.connectCalls]

/-- C1 (counterexample): two lock-serialized `ensure_connection` callers
starting from the disconnected initial state, against a session client whose
connect attempt fails, make two physical connect calls, not one — after the
first attempt fails the next caller starts its own attempt. -/
theorem two_callers_double_connect :
    (run_ensures initServerState [badEnv, badEnv]).connects = 2 ∧ (2 : Nat) ≠ 1 :=
  ⟨rfl, by decide⟩

/-- C1 (amended): N lock-serialized callers starting disconnected, when the
first attempt succeeds and subsequent liveness probes pass, make exactly one
physical connect call among them, every caller returns normally, and the
final shared status is connected — all callers observe the outcome of the
one attempt. -/
theorem ensure_coalesces_on_success (e0 : EnsureEnv) (rest : List EnsureEnv) (r : String)
    (hA : e0.connectA = CallResult.ok (true, r))
    (hchk : e0.check = CallResult.ok true)
    (hrest : ∀ e ∈ rest, e.check = CallResult.ok true) :
    (run_ensures initServerState (e0 :: rest)).connects = 1 ∧
    (run_ensures initServerState (e0 :: rest)).state.status.connected = true ∧
    ∀ res ∈ (run_ensures initServerState (e0 :: rest)).results, res = Except.ok () := by
  obtain ⟨hres, hconn, hci, hcount⟩ := ensure_connection_first initServerState e0 r rfl hA hchk
  have hrun : run_ensures initServerState (e0 :: rest)
      = { results := (ensure_connection initServerState e0).result ::
            (run_ensures (ensure_connection initServerState e0).state rest).results
          state := (run_ensures (ensure_connection initServerState e0).state rest).state
          connects := (ensure_connection initServerState e0).connectCalls
            + (run_ensures (ensure_connection initServerState e0).state rest).connects } := rfl
  rw [hrun, run_ensures_connected rest _ hconn hci hrest]
  refine ⟨by simp [hcount], hconn, ?_⟩
  intro res hmem
  simp only [List.mem_cons, List.mem_map] at hmem
  rcases hmem with h | ⟨e, _, h⟩
  · rw [h, hres]
  · rw [← h]

/-- Witness for C1 (amended): two serialized callers with an initially
succeeding session client make exactly one connect call and end connected. -/
theorem ensure_coalesces_on_success_witness :
    (run_ensures initServerState [goodEnv, goodEnv]).connects = 1 ∧
      (run_ensures initServerState [goodEnv, goodEnv]).state.status.connected = true :=
  ⟨(ensure_coalesces_on_success goodEnv [goodEnv] "Conectado com sucesso" rfl rfl
      (fun e he => by rw [List.mem_singleton] at he; subst he; rfl)).1,
    (ensure_coalesces_on_success goodEnv [goodEnv] "Conectado com sucesso" rfl rfl
      (fun e he => by rw [List.mem_singleton] at he; subst he; rfl)).2.1⟩

/-- C7: a keeper tick that finds the status connected and the client present,
with a probe that returns false or raises, writes connected = false, makes no
connect call (its trace has none), and the loop continues with the next tick;
the raised error is swallowed by the tick (the tick is a total function, the
embedded `except` block). -/
theorem keeper_tick_demotes_without_reconnect (s : ServerState) (env : ProbeEnv)
    (hconn : s.status.connected = true) (hci : s.clientInit = true)
    (henv : env = ProbeEnv.result false ∨ ∃ m, env = ProbeEnv.raises m) :
    (connection_keeper_tick s env).1.status.connected = false ∧
    Event.connectCall ∉ (connection_keeper_tick s env).2 ∧
    ∀ rest, connection_keeper_run s (env :: rest)
      = connection_keeper_run (connection_keeper_tick s env).1 rest := by
  refine ⟨?_, ?_, fun rest => rfl⟩ <;>
    rcases henv with h | ⟨m, h⟩ <;> subst h <;>
      simp [connection_keeper_tick, hconn, hci]

/-- Witness for C7: a dead probe on a connected state demotes the status. -/
theorem keeper_tick_demotes_witness :
    (connection_keeper_tick kConnState (ProbeEnv.result false)).1.status.connected = false :=
  (keeper_tick_demotes_without_reconnect kConnState (ProbeEnv.result false) rfl rfl
    (Or.inl rfl)).1

/-- C8: the keeper tick that demotes a connected status performs a status
write while its event trace contains no acquisition of the connection lock —
the background loop mutates the shared status without the lock that
`ensure_connection` holds, contradicting the required single-writer rule. -/
theorem keeper_tick_writes_status_without_lock :
    Event.statusWrite ∈ (connection_keeper_tick kConnState (ProbeEnv.result false)).2 ∧
      Event.lockAcquire ∉ (connection_keeper_tick kConnState (ProbeEnv.result false)).2 := by
  decide

/-- Being connected implies having a recorded last-connected timestamp. -/
def statusInvariant (s : ServerState) : Prop :=
  s.status.connected = true → s.status.lastConnected.isSome = true

/-- Every interleaving step — an `ensure_connection` invocation or a keeper
tick, with any session-client behaviour — preserves the invariant. -/
theorem applyOp_preserves_invariant (s : ServerState) (op : Op)
    (h : statusInvariant s) : statusInvariant (applyOp s op) := by
  cases op with
  | keeperOp env =>
      unfold statusInvariant applyOp connection_keeper_tick at *
      rcases env with ⟨alive⟩ | ⟨m⟩ <;>
        first
          | (cases alive <;> cases hcn : s.status.connected <;>
              cases hci : s.clientInit <;> simp_all)
          | (cases hcn : s.status.connected <;> cases hci : s.clientInit <;> simp_all)
  | ensureOp env =>
      obtain ⟨cA, chk, cB, iso, ep⟩ := env
      unfold statusInvariant applyOp ensure_connection ensureBody ensureCheck at *
      rcases cA with ⟨⟨bA, rA⟩⟩ | ⟨mA⟩ <;>
        rcases chk with ⟨bchk⟩ | ⟨mchk⟩ <;>
          rcases cB with ⟨⟨bB, rB⟩⟩ | ⟨mB⟩ <;>
            cases hcn : s.status.connected <;>
              (try cases bA) <;> (try cases bchk) <;> (try cases bB) <;> simp_all

/-- C9: in every state reachable from the initial module state by any
sequence of `ensure_connection` invocations and keeper ticks, a connected
status has a recorded last-connected timestamp. -/
theorem connected_implies_timestamp (ops : List Op)
    (h : (run_ops initServerState ops).status.connected = true) :
    (run_ops initServerState ops).status.lastConnected.isSome = true := by
  have key : ∀ (l : List Op) (s : ServerState),
      statusInvariant s → statusInvariant (run_ops s l) := by
    intro l
    induction l with
    | nil => intro s hs; exact hs
    | cons op l ih => intro s hs; exact ih (applyOp s op) (applyOp_preserves_invariant s op hs)
  exact key ops initServerState (fun hx => by simp [initServerState] at hx) h

/-- Witness for C9: after one successful connect the invariant fires. -/
theorem connected_implies_timestamp_witness :
    (run_ops initServerState [Op.ensureOp goodEnv]).status.lastConnected.isSome = true :=
  connected_implies_timestamp [Op.ensureOp goodEnv] rfl

/-- C10: a successful reconnect (status was connected, the probe said dead,
the single reconnect attempt succeeded) leaves `last_error` exactly as it
was — it is cleared only on the initial-connect success path — while
restoring the connected flag and returning normally. -/
theorem reconnect_preserves_lastError (s : ServerState) (env : EnsureEnv) (r : String)
    (hconn : s.status.connected = true)
    (hchk : env.check = CallResult.ok false)
    (hB : env.connectB = CallResult.ok (true, r)) :
    (ensure_connection s env).state.status.lastError = s.status.lastError ∧
    (ensure_connection s env).state.status.connected = true ∧
    (ensure_connection s env).result = Except.ok () := by
  simp [ensure_connection, ensureBody, ensureCheck, hconn, hchk, hB]

/-- Witness for C10: reconnecting out of a state with a stale recorded error
keeps that stale error while connected becomes true again. -/
theorem reconnect_preserves_lastError_witness :
    (ensure_connection staleState reconEnv).state.status.lastError = some "old failure" ∧
      (ensure_connection staleState reconEnv).state.status.connected = true :=
  ⟨((reconnect_preserves_lastError staleState reconEnv "ok" rfl rfl rfl).1).trans rfl,
    (reconnect_preserves_lastError staleState reconEnv "ok" rfl rfl rfl).2.1⟩
